import Mathlib

/-
Verification of the orcsome event-dispatch core (src/orcsome/wm.py, with
src/orcsome/core.py as the older parallel implementation).  The Python data
structures are shallowly embedded: dicts become association lists with
Python semantics (lookup, replacing insert, KeyError-raising delete), Python
lists become Lean lists, user callbacks become opaque numeric identifiers,
and the X11 calls (XGrabKey, XGrabKeyboard, XStringToKeysym, ...) become
oracle parameters or logged effects.
-/

set_option autoImplicit false

namespace Orcsome

/-- Python dict lookup, d.get(k): first matching key in the association list. -/
def alookup {α β : Type} [DecidableEq α] : List (α × β) → α → Option β
  | [], _ => none
  | (k, v) :: rest, a => if a = k then some v else alookup rest a

/-- Python dict assignment, d[k] = v: replace the binding in place, or append. -/
def ainsert {α β : Type} [DecidableEq α] : List (α × β) → α → β → List (α × β)
  | [], a, b => [(a, b)]
  | (k, v) :: rest, a, b => if a = k then (a, b) :: rest else (k, v) :: ainsert rest a b

/-- Python dict deletion of a key known to be present; absent keys are left alone
(callers model the KeyError separately where the source does not guard the delete). -/
def aerase {α β : Type} [DecidableEq α] : List (α × β) → α → List (α × β)
  | [], _ => []
  | (k, v) :: rest, a => if a = k then rest else (k, v) :: aerase rest a

/-- Python list.remove(x): drop the first occurrence (callers model the
ValueError separately where the source does not guard the call). -/
def lremove {α : Type} [DecidableEq α] : List α → α → List α
  | [], _ => []
  | x :: rest, a => if a = x then rest else x :: lremove rest a

/- X11 modifier mask constants used by wm.py via the xlib binding. -/

def ShiftMask : Nat := 1
def LockMask : Nat := 2
def ControlMask : Nat := 4
def Mod1Mask : Nat := 8
def Mod2Mask : Nat := 16
def Mod4Mask : Nat := 64

/-- Modifier-name table of wm.py (MODIFICATORS). -/
def MODIFICATORS : List (String × Nat) :=
  [("Alt", Mod1Mask), ("Control", ControlMask), ("Ctrl", ControlMask),
   ("Shift", ShiftMask), ("Win", Mod4Mask), ("Mod", Mod4Mask)]

/-- IGNORED_MOD_MASKS of wm.py: (0, LockMask, Mod2Mask, LockMask | Mod2Mask). -/
def IGNORED_MOD_MASKS : List Nat := [0, LockMask, Mod2Mask, LockMask ||| Mod2Mask]

/-- The registries of one WM instance (wm.py WM.__init__).  Handlers are opaque
numeric identifiers; windows and atoms are the numeric identifiers the X
server hands out. -/
structure WMState where
  key_handlers : List (Nat × List ((Nat × Nat) × Nat))
  property_handlers : List (Nat × List (Option Nat × List Nat))
  create_handlers : List Nat
  destroy_handlers : List (Nat × List Nat)
  signal_handlers : List (String × List Nat)
  focus_history : List Nat
  grab_keyboard_handler : Option Nat
  grab_pointer_handler : Option Nat
deriving DecidableEq, Repr

/-- The empty registry state produced by WM.__init__. -/
def WMState.initial : WMState :=
  { key_handlers := [], property_handlers := [], create_handlers := [],
    destroy_handlers := [], signal_handlers := [], focus_history := [],
    grab_keyboard_handler := none, grab_pointer_handler := none }

/-- The modifier-mask accumulation loop of WM.bind_key: modmask |= MODIFICATORS[m],
with an unknown name raising KeyError (modelled as none, the error path). -/
def parseModmask (mods : List String) : Option Nat :=
  mods.foldlM (fun acc m => (alookup MODIFICATORS m).map (fun v => acc ||| v)) 0

/-- Result of WM.bind_key before a handler is attached: either the no-op binder
(lambda func: func) of the error paths, or the real binder closing over the
parsed modifier mask and resolved key code. -/
inductive Binder where
  | noop
  | real (modmask : Nat) (code : Nat)
deriving DecidableEq, Repr

/-- WM.bind_key parsing stage (wm.py lines 80 to 96): split the spec on plus signs,
resolve modifiers through MODIFICATORS, resolve the key name through
XStringToKeysym (the strToKeysym oracle; none models NoSymbol) and translate it
with XKeysymToKeycode (the keysymToKeycode oracle). -/
def bind_key (strToKeysym : String → Option Nat) (keysymToKeycode : Nat → Nat)
    (keydef : String) : Binder :=
  let parts := keydef.splitOn "+"
  let mods := parts.dropLast
  let key := parts.getLastD ""
  match parseModmask mods with
  | none => Binder.noop
  | some modmask =>
    match strToKeysym key with
    | none => Binder.noop
    | some sym => Binder.real modmask (keysymToKeycode sym)

/-- Outcome of running the inner registration closure of WM.bind_key: the updated
state, the keys list the removal closure captured, and the XGrabKey requests
issued as (window, mask, code) triples. -/
structure BindResult where
  state : WMState
  keys : List (Nat × Nat)
  grabs : List (Nat × Nat × Nat)
deriving DecidableEq, Repr

/-- The inner closure of WM.bind_key (wm.py lines 98 to 104): for each ignored
modifier mask, grab the key and record the handler under (mask, code) in the
window's key-binding dict (created by setdefault). -/
def bind_key_inner (s : WMState) (window modmask code func : Nat) : BindResult :=
  IGNORED_MOD_MASKS.foldl
    (fun r imask =>
      let mask := modmask ||| imask
      let inner := (alookup r.state.key_handlers window).getD []
      { state := { r.state with
          key_handlers := ainsert r.state.key_handlers window (ainsert inner (mask, code) func) },
        keys := r.keys ++ [(mask, code)],
        grabs := r.grabs ++ [(window, mask, code)] })
    { state := s, keys := [], grabs := [] }

/-- Applying the value returned by WM.bind_key to a handler function: the no-op
binder returns the function untouched and registers nothing; the real binder
runs the inner registration closure.  The second component is the value handed
back to the caller (always the handler itself). -/
def apply_binder (s : WMState) (window : Nat) (b : Binder) (func : Nat) : BindResult × Nat :=
  match b with
  | Binder.noop => ({ state := s, keys := [], grabs := [] }, func)
  | Binder.real modmask code => (bind_key_inner s window modmask code func, func)

/-- The remove closure attached by WM.bind_key (wm.py lines 106 to 108):
for k in keys: del self.key_handlers[window][k].  A del on a missing dict key
raises KeyError. -/
def key_remove : WMState → Nat → List (Nat × Nat) → Except String WMState
  | s, _, [] => Except.ok s
  | s, window, k :: rest =>
    match alookup s.key_handlers window with
    | none => Except.error "KeyError"
    | some inner =>
      match alookup inner k with
      | none => Except.error "KeyError"
      | some _ =>
        key_remove { s with key_handlers := ainsert s.key_handlers window (aerase inner k) }
          window rest

/-- Registration effect of WM._on_create_manage: append the (wrapped) handler to
create_handlers. -/
def on_create_register (s : WMState) (func : Nat) : WMState :=
  { s with create_handlers := s.create_handlers ++ [func] }

/-- The remove closure of WM._on_create_manage:
self.create_handlers.remove(func); list.remove raises ValueError when the
element is absent. -/
def create_remove (s : WMState) (func : Nat) : Except String WMState :=
  if func ∈ s.create_handlers then
    Except.ok { s with create_handlers := lremove s.create_handlers func }
  else Except.error "ValueError"

/-- WM.on_destroy (wm.py lines 194 to 201): append the handler to the window's
destruction list.  The inner closure returns func unchanged and, unlike every
other registry, attaches no remove capability to it. -/
def on_destroy_register (s : WMState) (window func : Nat) : WMState × Nat :=
  let lst := (alookup s.destroy_handlers window).getD []
  ({ s with destroy_handlers := ainsert s.destroy_handlers window (lst ++ [func]) }, func)

/-- Registration effect of WM.on_property_change for one property atom:
property_handlers.setdefault(atom, dict).setdefault(window, list).append(func). -/
def on_property_change_register (s : WMState) (atom : Nat) (wid : Option Nat) (func : Nat) :
    WMState :=
  let wph := (alookup s.property_handlers atom).getD []
  let lst := (alookup wph wid).getD []
  { s with property_handlers := ainsert s.property_handlers atom (ainsert wph wid (lst ++ [func])) }

/-- The remove closure of WM.on_property_change for one property atom:
self.property_handlers[atom][window].remove(func), raising KeyError when either
dict key is gone and ValueError when the handler is not in the list. -/
def property_remove (s : WMState) (atom : Nat) (wid : Option Nat) (func : Nat) :
    Except String WMState :=
  match alookup s.property_handlers atom with
  | none => Except.error "KeyError"
  | some wph =>
    match alookup wph wid with
    | none => Except.error "KeyError"
    | some lst =>
      if func ∈ lst then
        Except.ok { s with
          property_handlers := ainsert s.property_handlers atom (ainsert wph wid (lremove lst func)) }
      else Except.error "ValueError"

/-- Registration effect of WM.on_signal:
signal_handlers.setdefault(signal, list).append(func). -/
def on_signal_register (s : WMState) (signal : String) (func : Nat) : WMState :=
  let lst := (alookup s.signal_handlers signal).getD []
  { s with signal_handlers := ainsert s.signal_handlers signal (lst ++ [func]) }

/-- The remove closure of WM.on_signal: self.signal_handlers[signal].remove(func). -/
def signal_remove (s : WMState) (signal : String) (func : Nat) : Except String WMState :=
  match alookup s.signal_handlers signal with
  | none => Except.error "KeyError"
  | some lst =>
    if func ∈ lst then
      Except.ok { s with signal_handlers := ainsert s.signal_handlers signal (lremove lst func) }
    else Except.error "ValueError"

/-- WM._clean_window_data (wm.py lines 477 to 494), line by line: delete the
window's key-binding dict when present; the destroy_handlers line of the source
is the bare expression self.destroy_handlers[window] with no del, so the
destruction-listener map is left untouched; remove the window from
focus_history, swallowing ValueError; for every atom delete the
window-specific subscription entry and then drop the atom when its dict became
empty. -/
def clean_window_data (s : WMState) (window : Nat) : WMState :=
  let kh := if (alookup s.key_handlers window).isSome then aerase s.key_handlers window
            else s.key_handlers
  let dh := s.destroy_handlers
  let fh := if window ∈ s.focus_history then lremove s.focus_history window else s.focus_history
  let ph := ((s.property_handlers.map fun p => (p.1, aerase p.2 (some window))).filter
              fun p => !p.2.isEmpty)
  { s with key_handlers := kh, destroy_handlers := dh, focus_history := fh,
           property_handlers := ph }

/-- WM.handle_destroy (wm.py lines 376 to 388): look up the destruction listeners
for the destroyed window (KeyError means none), run them, and in the finally
block run _clean_window_data unconditionally - also when the lookup failed and
also when a listener raised.  Listener bodies are opaque here and do not
mutate the registries; the returned list records which listeners ran. -/
def handle_destroy (s : WMState) (window : Nat) : WMState × List Nat :=
  let invoked := (alookup s.destroy_handlers window).getD []
  (clean_window_data s window, invoked)

/-- WM.grab_keyboard (wm.py lines 612 to 623): fail fast when the slot is held,
otherwise issue XGrabKeyboard (whose status is the xresult oracle, 0 meaning
success) and install the handler only on success. -/
def grab_keyboard (s : WMState) (xresult : Nat) (func : Nat) : WMState × Bool :=
  if s.grab_keyboard_handler.isSome then (s, false)
  else if xresult = 0 then ({ s with grab_keyboard_handler := some func }, true)
  else (s, false)

/-- WM.ungrab_keyboard: clear the slot unconditionally (then issue
XUngrabKeyboard, an external call with no registry effect). -/
def ungrab_keyboard (s : WMState) : WMState :=
  { s with grab_keyboard_handler := none }

/-- WM.grab_pointer (wm.py lines 629 to 640), the pointer twin of grab_keyboard. -/
def grab_pointer (s : WMState) (xresult : Nat) (func : Nat) : WMState × Bool :=
  if s.grab_pointer_handler.isSome then (s, false)
  else if xresult = 0 then ({ s with grab_pointer_handler := some func }, true)
  else (s, false)

/-- WM.ungrab_pointer: clear the slot unconditionally. -/
def ungrab_pointer (s : WMState) : WMState :=
  { s with grab_pointer_handler := none }

/- Startup-replay model (claim C4).  A creation listener is its identifier plus
the flag saying whether _on_create_manage wrapped it with the startup-skip
lambda (self.startup or oofunc()); bodies are otherwise opaque and do not
mutate the state.  The log records each body that actually ran together with
the value of self.startup it observed. -/

/-- One creation listener as stored in create_handlers by _on_create_manage:
skip is true for on_create registrations (ignore_startup), false for on_manage. -/
structure CHandler where
  id : Nat
  skip : Bool
deriving DecidableEq, Repr

/-- State of the startup-flag machine: the flag itself, the registered creation
listeners, and the invocation log of (listener body id, observed startup). -/
structure CState where
  startup : Bool
  create_handlers : List CHandler
  log : List (Nat × Bool)
deriving DecidableEq, Repr

/-- WM.process_create_window (wm.py lines 329 to 335): run every creation
listener in registration order.  A startup-skip wrapper short-circuits the
body while self.startup is true; every body that runs observes the current
flag. -/
def process_create_window (s : CState) : CState :=
  s.create_handlers.foldl
    (fun acc h =>
      if h.skip && acc.startup then acc
      else { acc with log := acc.log ++ [(h.id, acc.startup)] })
    s

/-- The log entries one pass of the creation-listener loop appends when the
startup flag has the given value: every body that runs observes that value,
and startup-skip listeners are dropped while the flag is raised. -/
def replay_entries (hs : List CHandler) (flag : Bool) : List (Nat × Bool) :=
  hs.filterMap (fun h => if h.skip && flag then none else some (h.id, flag))

/-- WM.init (wm.py lines 337 to 349): set self.startup = True, then replay
process_create_window over every client the session already reports. -/
def wm_init (clients : List Nat) (s : CState) : CState :=
  clients.foldl (fun acc _ => process_create_window acc) { s with startup := true }

/-- WM.handle_create (wm.py lines 370 to 374): a live CreateNotify sets
self.startup = False before running the creation listeners. -/
def handle_create (s : CState) : CState :=
  process_create_window { s with startup := false }

/-- The events of the run loop as far as the startup flag is concerned: only
handle_create assigns self.startup; every other handler leaves it alone. -/
inductive CEvent where
  | create
  | other
deriving DecidableEq, Repr

/-- One run-loop dispatch step of the startup-flag machine. -/
def cstep (s : CState) : CEvent → CState
  | CEvent.create => handle_create s
  | CEvent.other => s

/- Live-list dispatch model (claim C5).  process_create_window and
handle_property iterate directly over the registry list (for handler in
self.create_handlers) while a handler body may call a remove capability that
mutates that same list.  CPython iterates a list by index: fetch element i,
run the body (which may shrink the list), then move to index i+1 of the
mutated list. -/

/-- What a handler body does to the sequence being dispatched: nothing, or
remove the first handler with the given identifier (a remove capability
invoked mid-dispatch). -/
inductive HEffect where
  | keep
  | removeId (target : Nat)
deriving DecidableEq, Repr

/-- A dispatched handler: identifier plus its effect on the handler list. -/
structure DHandler where
  id : Nat
  eff : HEffect
deriving DecidableEq, Repr

/-- list.remove by handler identifier (first occurrence). -/
def dremove (hs : List DHandler) (t : Nat) : List DHandler :=
  match hs with
  | [] => []
  | x :: rest => if x.id = t then rest else x :: dremove rest t

/-- CPython for-loop over a live list: read index i of the current list, run the
handler (applying its mutation), then advance to index i+1.  The fuel bounds
the number of iterations (the initial list length suffices, since handlers
only remove).  Returns the final list and the identifiers invoked, in order. -/
def dispatch_live : Nat → List DHandler → Nat → List Nat → List DHandler × List Nat
  | 0, hs, _, acc => (hs, acc)
  | fuel + 1, hs, i, acc =>
    match hs[i]? with
    | none => (hs, acc)
    | some h =>
      let hs' := match h.eff with
        | HEffect.keep => hs
        | HEffect.removeId t => dremove hs t
      dispatch_live fuel hs' (i + 1) (acc ++ [h.id])

/- Run-loop model (claim C6).  One drain cycle of WM.run (wm.py lines 445 to
461): the queued events are abstracted by what their handler invocation does -
return normally, raise an unrecognized fault (logged), raise
KeyboardInterrupt or SystemExit (the stop request), or raise
RestartException. -/

/-- Outcome of invoking the handler of one queued event. -/
inductive HOutcome where
  | ok
  | err
  | stop
  | restart
deriving DecidableEq, Repr

/-- The dispatch loop of WM.run over one queue of events: stop returns True to
the caller, restart returns False, an unrecognized fault is logged (counted)
and the loop continues with the next queued event; an exhausted queue means
the loop re-blocks (none).  The pair is (result handed to the caller, number
of faults logged). -/
def runDrain : List HOutcome → Option Bool × Nat
  | [] => (none, 0)
  | o :: rest =>
    match o with
    | HOutcome.stop => (some true, 0)
    | HOutcome.restart => (some false, 0)
    | HOutcome.ok => runDrain rest
    | HOutcome.err =>
      let r := runDrain rest
      (r.1, r.2 + 1)

/-- Is an outcome one of the two control faults? -/
def isControl (o : HOutcome) : Bool :=
  match o with
  | HOutcome.stop => true
  | HOutcome.restart => true
  | _ => false

/-- The first stop or restart in the queue, if any. -/
def firstControl (q : List HOutcome) : Option HOutcome :=
  q.find? isControl

/- Property-change dispatch model (claim C7).  handle_property (wm.py lines 390
to 403) works on the property_handlers registry of WMState; the dispatched
handler identifiers are returned in invocation order. -/

/-- WM.handle_property: only a PropertyNotify whose state field is 0 (the
non-echo discriminant) is processed, and only when the atom has subscribers;
window-specific subscribers run first, then the None-keyed global ones. -/
def handle_property (s : WMState) (atom window state : Nat) : List Nat :=
  if state = 0 then
    match alookup s.property_handlers atom with
    | none => []
    | some wph =>
      (match alookup wph (some window) with
       | some hs => hs
       | none => []) ++
      (match alookup wph none with
       | some hs => hs
       | none => [])
  else []

/- Window matcher model (claim C8, core.py lines 263 to 293).  Regular
expression matching is abstracted by the rmatch oracle: rmatch p d is the
truthiness of re.compile(p).match(d), the match-from-start-of-string test.
A window carries the attributes the matcher reads. -/

/-- The attributes WM.is_match reads: get_wm_class() gives the (instance name,
class name) pair or raises TypeError when unset (none); get_window_role gives
the role string or None; the raw _NET_WM_DESKTOP property value or None. -/
structure XWindow where
  wm_class : Option (String × String)
  role : Option String
  desktop_prop : Option Nat
deriving DecidableEq, Repr

/-- WM.get_window_desktop (core.py lines 232 to 241): the property value, with
0xffffffff mapped to -1 and an absent property mapped to None. -/
def get_window_desktop (w : XWindow) : Option Int :=
  match w.desktop_prop with
  | none => none
  | some d => if d = 0xffffffff then some (-1) else some (Int.ofNat d)

/-- WM.match_string (core.py lines 263 to 272): an empty or absent attribute
fails (if not data: return False); otherwise the compiled pattern is matched
from the start of the string (the rmatch oracle). -/
def match_string (rmatch : String → String → Bool) (pattern : String) (data : Option String) :
    Bool :=
  match data with
  | none => false
  | some d => if d = "" then false else rmatch pattern d

/-- Python truthiness of an optional string criterion: None and the empty string
are falsy, so is_match skips such a criterion. -/
def truthyS (o : Option String) : Bool :=
  match o with
  | none => false
  | some s => !(s = "")

/-- One string-criterion statement of WM.is_match: if match and crit:
match = self.match_string(crit, data).  Python truthiness skips a None or
empty criterion and short-circuits once match is falsy. -/
def match_step (rmatch : String → String → Bool) (m : Bool) (crit data : Option String) : Bool :=
  if m && truthyS crit then match_string rmatch (crit.getD "") data else m

/-- The desktop statement of WM.is_match: if match and desktop is not None:
match = self.get_window_desktop(window) == desktop (None compares unequal to
any number). -/
def desktop_step (m : Bool) (wdesk desk : Option Int) : Bool :=
  match desk with
  | none => m
  | some dv =>
    if m then
      match wdesk with
      | some x => x = dv
      | none => false
    else m

/-- WM.is_match (core.py lines 274 to 293), statement for statement: match
starts True and the four criterion statements run in order - name, cls, role,
desktop. -/
def is_match (rmatch : String → String → Bool) (w : XWindow)
    (name cls role : Option String) (desktop : Option Int) : Bool :=
  desktop_step
    (match_step rmatch
      (match_step rmatch
        (match_step rmatch true name (w.wm_class.map (fun p => p.1)))
        cls (w.wm_class.map (fun p => p.2)))
      role w.role)
    (get_window_desktop w) desktop

/-- One criterion as the claim words it: a supplied pattern must match the
attribute from the start of the string, an absent attribute fails the
criterion, an omitted criterion is vacuously true. -/
def crit_claim (rmatch : String → String → Bool) (pattern data : Option String) : Bool :=
  match pattern with
  | none => true
  | some p =>
    match data with
    | none => false
    | some d => rmatch p d

/-- The desktop criterion: exact integer equality against the window's desktop
value, an absent desktop failing, an omitted criterion vacuously true. -/
def crit_desktop (wdesk : Option Int) (desk : Option Int) : Bool :=
  match desk with
  | none => true
  | some dv =>
    match wdesk with
    | some x => x = dv
    | none => false

/-- The window-match predicate exactly as claim C8 words it: the conjunction of
the four criteria. -/
def is_match_claim (rmatch : String → String → Bool) (w : XWindow)
    (name cls role : Option String) (desktop : Option Int) : Bool :=
  crit_claim rmatch name (w.wm_class.map (fun p => p.1)) &&
  crit_claim rmatch cls (w.wm_class.map (fun p => p.2)) &&
  crit_claim rmatch role w.role &&
  crit_desktop (get_window_desktop w) desktop

/-- One criterion as the code actually behaves: an empty pattern is skipped
(treated as omitted) and an absent or empty attribute fails a non-empty
pattern. -/
def crit_amended (rmatch : String → String → Bool) (pattern data : Option String) : Bool :=
  match pattern with
  | none => true
  | some p =>
    if p = "" then true
    else
      match data with
      | none => false
      | some d => if d = "" then false else rmatch p d

/-- The amended window-match predicate: conjunctive, with empty patterns treated
as omitted and absent-or-empty attributes failing. -/
def is_match_amended (rmatch : String → String → Bool) (w : XWindow)
    (name cls role : Option String) (desktop : Option Int) : Bool :=
  crit_amended rmatch name (w.wm_class.map (fun p => p.1)) &&
  crit_amended rmatch cls (w.wm_class.map (fun p => p.2)) &&
  crit_amended rmatch role w.role &&
  crit_desktop (get_window_desktop w) desktop

/-- The subscriber list stored for one (atom, window-or-None) pair. -/
def subscribers (s : WMState) (atom : Nat) (wid : Option Nat) : List Nat :=
  (alookup ((alookup s.property_handlers atom).getD []) wid).getD []

/- Helper lemmas about the Python-dict model. -/

theorem alookup_ainsert {α β : Type} [DecidableEq α] (l : List (α × β)) (k : α) (v : β) :
    alookup (ainsert l k v) k = some v := by
  induction l with
  | nil => simp [ainsert, alookup]
  | cons p rest ih =>
    obtain ⟨k1, v1⟩ := p
    by_cases h : k = k1 <;> simp [ainsert, alookup, h, ih]

theorem alookup_ainsert_ne {α β : Type} [DecidableEq α] (l : List (α × β)) (k k2 : α) (v : β)
    (h : k2 ≠ k) : alookup (ainsert l k v) k2 = alookup l k2 := by
  induction l with
  | nil => simp [ainsert, alookup, h]
  | cons p rest ih =>
    obtain ⟨k1, v1⟩ := p
    by_cases h1 : k = k1
    · subst h1
      simp [ainsert, alookup, h]
    · by_cases h2 : k2 = k1 <;> simp [ainsert, alookup, h1, h2, ih]

theorem ainsert_ainsert {α β : Type} [DecidableEq α] (l : List (α × β)) (k : α) (v v2 : β) :
    ainsert (ainsert l k v) k v2 = ainsert l k v2 := by
  induction l with
  | nil => simp [ainsert]
  | cons p rest ih =>
    obtain ⟨k1, v1⟩ := p
    by_cases h : k = k1 <;> simp [ainsert, h, ih]

theorem lremove_append_of_not_mem {α : Type} [DecidableEq α] (l : List α) (a : α)
    (h : a ∉ l) : lremove (l ++ [a]) a = l := by
  induction l with
  | nil => simp [lremove]
  | cons x rest ih =>
    simp only [List.mem_cons, not_or] at h
    simp [lremove, h.1, ih h.2]

/-- A mask built only from the MODIFICATORS values has neither the LockMask bit
nor the Mod2Mask bit set (18 = LockMask with Mod2Mask), so bits 1 and 4 are
clear. -/
theorem mask_bits_of_and18 (mm : Nat) (hmm : mm &&& 18 = 0) :
    mm.testBit 1 = false ∧ mm.testBit 4 = false := by
  have h1 := congrArg (fun x : Nat => x.testBit 1) hmm
  have h4 := congrArg (fun x : Nat => x.testBit 4) hmm
  simp only [Nat.testBit_land] at h1 h4
  rw [show Nat.testBit 18 1 = true from by decide] at h1
  rw [show Nat.testBit 18 4 = true from by decide] at h4
  simp at h1 h4
  exact ⟨h1, h4⟩

/-- The four expanded masks of one key binding are pairwise distinct whenever
the requested mask avoids the two ignorable bits. -/
theorem masks_distinct (mm : Nat) (hmm : mm &&& 18 = 0) :
    (mm ||| 2) ≠ mm ∧ (mm ||| 16) ≠ mm ∧ (mm ||| 18) ≠ mm ∧
    (mm ||| 16) ≠ (mm ||| 2) ∧ (mm ||| 18) ≠ (mm ||| 2) ∧ (mm ||| 18) ≠ (mm ||| 16) := by
  obtain ⟨h1, h4⟩ := mask_bits_of_and18 mm hmm
  refine ⟨?_, ?_, ?_, ?_, ?_, ?_⟩ <;> intro heq
  · have := congrArg (fun x : Nat => x.testBit 1) heq
    simp only [Nat.testBit_lor] at this
    rw [show Nat.testBit 2 1 = true from by decide] at this
    simp [h1] at this
  · have := congrArg (fun x : Nat => x.testBit 4) heq
    simp only [Nat.testBit_lor] at this
    rw [show Nat.testBit 16 4 = true from by decide] at this
    simp [h4] at this
  · have := congrArg (fun x : Nat => x.testBit 1) heq
    simp only [Nat.testBit_lor] at this
    rw [show Nat.testBit 18 1 = true from by decide] at this
    simp [h1] at this
  · have := congrArg (fun x : Nat => x.testBit 4) heq
    simp only [Nat.testBit_lor] at this
    rw [show Nat.testBit 16 4 = true from by decide,
        show Nat.testBit 2 4 = false from by decide] at this
    simp [h4] at this
  · have := congrArg (fun x : Nat => x.testBit 4) heq
    simp only [Nat.testBit_lor] at this
    rw [show Nat.testBit 18 4 = true from by decide,
        show Nat.testBit 2 4 = false from by decide] at this
    simp [h4] at this
  · have := congrArg (fun x : Nat => x.testBit 1) heq
    simp only [Nat.testBit_lor] at this
    rw [show Nat.testBit 18 1 = true from by decide,
        show Nat.testBit 16 1 = false from by decide] at this
    simp [h1] at this

/-- Unfolding the registration loop of bind_key over the four ignored modifier
masks. -/
theorem bind_key_inner_eval (s : WMState) (w mm code h : Nat) :
    bind_key_inner s w mm code h =
      { state := { s with key_handlers :=
                            ainsert s.key_handlers w
                              (ainsert (ainsert (ainsert (ainsert
                                ((alookup s.key_handlers w).getD []) (mm, code) h)
                                  (mm ||| 2, code) h) (mm ||| 16, code) h) (mm ||| 18, code) h) },
        keys := [(mm, code), (mm ||| 2, code), (mm ||| 16, code), (mm ||| 18, code)],
        grabs := [(w, mm, code), (w, mm ||| 2, code), (w, mm ||| 16, code), (w, mm ||| 18, code)] } := by
  have h216 : (2 : Nat) ||| 16 = 18 := by decide
  simp [bind_key_inner, IGNORED_MOD_MASKS, LockMask, Mod2Mask, List.foldl, h216,
        alookup_ainsert, ainsert_ainsert]

/-- A successful dict lookup comes from an entry of the list. -/
theorem alookup_mem {α β : Type} [DecidableEq α] (l : List (α × β)) (k : α) (v : β)
    (h : alookup l k = some v) : (k, v) ∈ l := by
  induction l with
  | nil => simp [alookup] at h
  | cons p rest ih =>
    obtain ⟨k1, v1⟩ := p
    by_cases hk : k = k1
    · subst hk
      simp [alookup] at h
      simp [h]
    · simp only [alookup, hk, if_false] at h
      simp [ih h]

/-- Every mask in the MODIFICATORS table leaves the lock bit (1) and the
secondary-modifier bit (4) clear. -/
theorem MODIFICATORS_bits (m : String) (v : Nat) (h : alookup MODIFICATORS m = some v) :
    v.testBit 1 = false ∧ v.testBit 4 = false := by
  have hm := alookup_mem MODIFICATORS m v h
  simp only [ MODIFICATORS, Mod1Mask, ControlMask, ShiftMask, Mod4Mask, List.mem_cons,
    List.not_mem_nil, or_false, Prod.mk.injEq] at hm
  rcases hm with ⟨_, rfl⟩ | ⟨_, rfl⟩ | ⟨_, rfl⟩ | ⟨_, rfl⟩ | ⟨_, rfl⟩ | ⟨_, rfl⟩ <;> decide

/-- The modifier-mask accumulation of bind_key keeps bits 1 and 4 clear. -/
theorem parseModmask_aux (mods : List String) (acc mm : Nat)
    (h1 : acc.testBit 1 = false) (h4 : acc.testBit 4 = false)
    (h : mods.foldlM (fun a m => (alookup MODIFICATORS m).map (fun v => a ||| v)) acc = some mm) :
    mm.testBit 1 = false ∧ mm.testBit 4 = false := by
  induction mods generalizing acc with
  | nil =>
    simp only [List.foldlM_nil] at h
    cases h
    exact ⟨h1, h4⟩
  | cons m rest ih =>
    rw [List.foldlM_cons] at h
    cases hv : alookup MODIFICATORS m with
    | none =>
      rw [hv] at h
      simp at h
    | some v =>
      rw [hv] at h
      simp only [Option.map_some', Option.some_bind] at h
      obtain ⟨hv1, hv4⟩ := MODIFICATORS_bits m v hv
      exact ih (acc ||| v) (by simp [Nat.testBit_lor, h1, hv1])
        (by simp [Nat.testBit_lor, h4, hv4]) h

/-- A number with bits 1 and 4 clear has empty intersection with 18. -/
theorem and18_of_bits (mm : Nat) (h1 : mm.testBit 1 = false) (h4 : mm.testBit 4 = false) :
    mm &&& 18 = 0 := by
  apply Nat.eq_of_testBit_eq
  intro i
  simp only [Nat.testBit_land, Nat.zero_testBit]
  match i with
  | 0 => simp [show Nat.testBit 18 0 = false from by decide]
  | 1 => simp [h1]
  | 2 => simp [show Nat.testBit 18 2 = false from by decide]
  | 3 => simp [show Nat.testBit 18 3 = false from by decide]
  | 4 => simp [h4]
  | n + 5 =>
    have h32 : (18 : Nat) < 2 ^ (n + 5) := by
      calc (18 : Nat) < 2 ^ 5 := by norm_num
        _ ≤ 2 ^ (n + 5) := Nat.pow_le_pow_right (by norm_num) (by omega)
    simp [Nat.testBit_eq_false_of_lt h32]

/-- A mask successfully parsed from a key spec never carries the lock bit or the
secondary-modifier bit: the four ignored-mask variants stay distinct. -/
theorem parseModmask_and18 (mods : List String) (mm : Nat)
    (h : parseModmask mods = some mm) : mm &&& 18 = 0 := by
  unfold parseModmask at h
  have hb := parseModmask_aux mods 0 mm (by decide) (by decide) h
  exact and18_of_bits mm hb.1 hb.2

/-- Registering a binding for a window with no previous bindings stores exactly
the four expanded entries, in expansion order. -/
theorem key_handlers_after_bind (s : WMState) (w mm code h : Nat) (hmm : mm &&& 18 = 0)
    (hw : alookup s.key_handlers w = none) :
    (bind_key_inner s w mm code h).state.key_handlers =
      ainsert s.key_handlers w
        [((mm, code), h), ((mm ||| 2, code), h), ((mm ||| 16, code), h), ((mm ||| 18, code), h)] := by
  obtain ⟨d1, d2, d3, d4, d5, d6⟩ := masks_distinct mm hmm
  rw [bind_key_inner_eval]
  simp [hw, ainsert, Prod.ext_iff, d1, d2, d3, d4, d5, d6]

/-- Invoking the removal closure right after such a registration deletes exactly
the four entries, leaving the window's (now empty) binding map and every other
registry untouched. -/
theorem key_remove_after_bind (s : WMState) (w mm code h : Nat) (hmm : mm &&& 18 = 0)
    (hw : alookup s.key_handlers w = none) :
    key_remove (bind_key_inner s w mm code h).state w (bind_key_inner s w mm code h).keys =
      Except.ok { s with key_handlers := ainsert s.key_handlers w [] } := by
  obtain ⟨d1, d2, d3, d4, d5, d6⟩ := masks_distinct mm hmm
  rw [bind_key_inner_eval]
  simp [hw, key_remove, ainsert, alookup, aerase, alookup_ainsert, ainsert_ainsert,
        Prod.ext_iff, d1, d2, d3, d4, d5, d6]

/-- C3: for a key spec whose modifier list parses to the requested mask M,
registration on a window with no previous bindings inserts exactly the four
entries (M OR i, C) for i in the ignored-mask set (none, lock, secondary,
both) - pairwise distinct - into that window's key-binding map, issues exactly
one grab request per entry, leaves every other registry and every other
window's bindings untouched, and the single removal handle deletes exactly
these four entries in one invocation. -/
theorem C3_key_binding_expansion (s : WMState) (mods : List String) (w mm code h : Nat)
    (hparse : parseModmask mods = some mm)
    (hw : alookup s.key_handlers w = none) :
    (bind_key_inner s w mm code h).keys =
      [(mm, code), (mm ||| 2, code), (mm ||| 16, code), (mm ||| 18, code)] ∧
    ((bind_key_inner s w mm code h).keys).Nodup ∧
    (bind_key_inner s w mm code h).grabs =
      ((bind_key_inner s w mm code h).keys).map (fun k => (w, k.1, k.2)) ∧
    alookup (bind_key_inner s w mm code h).state.key_handlers w =
      some [((mm, code), h), ((mm ||| 2, code), h), ((mm ||| 16, code), h),
        ((mm ||| 18, code), h)] ∧
    (∀ w2, w2 ≠ w → alookup (bind_key_inner s w mm code h).state.key_handlers w2 =
      alookup s.key_handlers w2) ∧
    (bind_key_inner s w mm code h).state.property_handlers = s.property_handlers ∧
    (bind_key_inner s w mm code h).state.create_handlers = s.create_handlers ∧
    (bind_key_inner s w mm code h).state.destroy_handlers = s.destroy_handlers ∧
    key_remove (bind_key_inner s w mm code h).state w (bind_key_inner s w mm code h).keys =
      Except.ok { s with key_handlers := ainsert s.key_handlers w [] } := by
  have hmm := parseModmask_and18 mods mm hparse
  obtain ⟨d1, d2, d3, d4, d5, d6⟩ := masks_distinct mm hmm
  refine ⟨?_, ?_, ?_, ?_, ?_, ?_, ?_, ?_, ?_⟩
  · rw [bind_key_inner_eval]
  · rw [bind_key_inner_eval]
    simp [Prod.ext_iff, Ne.symm d1, Ne.symm d2, Ne.symm d3, Ne.symm d4, Ne.symm d5, Ne.symm d6]
  · rw [bind_key_inner_eval]
    rfl
  · rw [key_handlers_after_bind s w mm code h hmm hw]
    exact alookup_ainsert _ _ _
  · intro w2 hw2
    rw [key_handlers_after_bind s w mm code h hmm hw]
    exact alookup_ainsert_ne _ _ _ _ hw2
  · rw [bind_key_inner_eval]
  · rw [bind_key_inner_eval]
  · rw [bind_key_inner_eval]
  · exact key_remove_after_bind s w mm code h hmm hw

/-- C3 witness: binding Alt (mask 8) with key code 38 as handler 1 on window 0
of the empty registry; the unchanged-other-window part is sampled at window 5. -/
theorem C3_key_binding_expansion_witness :
    (bind_key_inner WMState.initial 0 8 38 1).keys =
      [(8, 38), (10, 38), (24, 38), (26, 38)] ∧
    alookup (bind_key_inner WMState.initial 0 8 38 1).state.key_handlers 0 =
      some [((8, 38), 1), ((10, 38), 1), ((24, 38), 1), ((26, 38), 1)] ∧
    alookup (bind_key_inner WMState.initial 0 8 38 1).state.key_handlers 5 =
      alookup WMState.initial.key_handlers 5 ∧
    key_remove (bind_key_inner WMState.initial 0 8 38 1).state 0
        (bind_key_inner WMState.initial 0 8 38 1).keys =
      Except.ok { WMState.initial with key_handlers := ainsert WMState.initial.key_handlers 0 [] } := by
  have hc := C3_key_binding_expansion WMState.initial ["Alt"] 0 8 38 1 (by decide) rfl
  refine ⟨?_, hc.2.2.2.1, hc.2.2.2.2.1 5 (by decide), hc.2.2.2.2.2.2.2.2⟩
  · have h1 := hc.1
    simpa using h1

/-- C2: the claim says every removal capability is idempotent - a second
invocation is a no-op raising no fault.  The code disagrees at a concrete
input: after binding a key (mask 8, code 38, handler 1) on window 0 of the
empty registry, the first invocation of the remove closure succeeds and the
second raises KeyError, because the four (mask, code) dict keys are already
gone. -/
theorem C2_remove_twice_faults :
    key_remove (bind_key_inner WMState.initial 0 8 38 1).state 0
        (bind_key_inner WMState.initial 0 8 38 1).keys =
      Except.ok { WMState.initial with key_handlers := [(0, [])] } ∧
    key_remove { WMState.initial with key_handlers := [(0, [])] } 0
        (bind_key_inner WMState.initial 0 8 38 1).keys =
      Except.error "KeyError" := by
  constructor
  · rfl
  · rfl

/-- A property subscription registered and removed once faults on the second
removal: the remove closure reaches the original (now func-free) subscriber
list and list.remove raises ValueError. -/
theorem property_remove_twice (s : WMState) (atom : Nat) (wid : Option Nat) (func : Nat)
    (hp : func ∉ subscribers s atom wid) :
    ∃ s2, property_remove (on_property_change_register s atom wid func) atom wid func =
        Except.ok s2 ∧
      property_remove s2 atom wid func = Except.error "ValueError" := by
  have hp2 : func ∉ (alookup ((alookup s.property_handlers atom).getD []) wid).getD [] := by
    simpa [subscribers] using hp
  have hr := lremove_append_of_not_mem
    ((alookup ((alookup s.property_handlers atom).getD []) wid).getD []) func hp2
  refine ⟨{ s with
              property_handlers :=
                ainsert s.property_handlers atom
                  (ainsert ((alookup s.property_handlers atom).getD []) wid
                    ((alookup ((alookup s.property_handlers atom).getD []) wid).getD [])) },
    ?_, ?_⟩
  · simp only [property_remove, on_property_change_register, alookup_ainsert, ainsert_ainsert]
    simp [hr]
  · simp only [property_remove, alookup_ainsert]
    simp [hp2]

/-- A signal listener registered and removed once faults on the second removal
the same way. -/
theorem signal_remove_twice (s : WMState) (sig : String) (func : Nat)
    (hsig : func ∉ (alookup s.signal_handlers sig).getD []) :
    ∃ s2, signal_remove (on_signal_register s sig func) sig func = Except.ok s2 ∧
      signal_remove s2 sig func = Except.error "ValueError" := by
  have hr := lremove_append_of_not_mem ((alookup s.signal_handlers sig).getD []) func hsig
  refine ⟨{ s with
              signal_handlers :=
                ainsert s.signal_handlers sig ((alookup s.signal_handlers sig).getD []) },
    ?_, ?_⟩
  · simp only [signal_remove, on_signal_register, alookup_ainsert, ainsert_ainsert]
    simp [hr]
  · simp only [signal_remove, alookup_ainsert]
    simp [hsig]

/-- C2 amended: key-binding, property-subscription, creation-listener and
signal-listener registrations return a removal capability but
destruction-listener registration returns the handler bare, with no removal
effect beyond appending it to the window's listener list; and a removal
capability is not idempotent: after a register-then-unregister sequence a
second invocation raises - KeyError for the dict-backed key bindings,
ValueError for the list-backed creation, property and signal registries. -/
theorem C2_removal_not_idempotent (s : WMState) (w mm code h atom dw : Nat)
    (wid : Option Nat) (sig : String)
    (hmm : mm &&& 18 = 0) (hw : alookup s.key_handlers w = none)
    (hc : h ∉ s.create_handlers)
    (hp : h ∉ subscribers s atom wid)
    (hsig : h ∉ (alookup s.signal_handlers sig).getD []) :
    key_remove (bind_key_inner s w mm code h).state w (bind_key_inner s w mm code h).keys =
      Except.ok { s with key_handlers := ainsert s.key_handlers w [] } ∧
    key_remove { s with key_handlers := ainsert s.key_handlers w [] } w
        (bind_key_inner s w mm code h).keys = Except.error "KeyError" ∧
    create_remove (on_create_register s h) h = Except.ok s ∧
    create_remove s h = Except.error "ValueError" ∧
    (∃ s2, property_remove (on_property_change_register s atom wid h) atom wid h =
        Except.ok s2 ∧
      property_remove s2 atom wid h = Except.error "ValueError") ∧
    (∃ s3, signal_remove (on_signal_register s sig h) sig h = Except.ok s3 ∧
      signal_remove s3 sig h = Except.error "ValueError") ∧
    (on_destroy_register s dw h).2 = h ∧
    (on_destroy_register s dw h).1.destroy_handlers =
      ainsert s.destroy_handlers dw ((alookup s.destroy_handlers dw).getD [] ++ [h]) := by
  refine ⟨key_remove_after_bind s w mm code h hmm hw, ?_, ?_, ?_,
    property_remove_twice s atom wid h hp, signal_remove_twice s sig h hsig, rfl, rfl⟩
  · have hkeys : (bind_key_inner s w mm code h).keys =
        [(mm, code), (mm ||| 2, code), (mm ||| 16, code), (mm ||| 18, code)] := by
      rw [bind_key_inner_eval]
    rw [hkeys]
    simp [key_remove, alookup_ainsert, alookup]
  · have hr : lremove (s.create_handlers ++ [h]) h = s.create_handlers :=
      lremove_append_of_not_mem s.create_handlers h hc
    simp [create_remove, on_create_register, hr]
  · simp [create_remove, hc]

/-- C2 witness: handler 1 registered on the empty registry as key handler
(mask 8, code 38, window 0), creation listener, subscriber for atom 1 on
window 2, listener for signal restart, and destruction listener for window 3. -/
theorem C2_removal_not_idempotent_witness :
    key_remove (bind_key_inner WMState.initial 0 8 38 1).state 0
        (bind_key_inner WMState.initial 0 8 38 1).keys =
      Except.ok { WMState.initial with
        key_handlers := ainsert WMState.initial.key_handlers 0 [] } ∧
    key_remove { WMState.initial with
        key_handlers := ainsert WMState.initial.key_handlers 0 [] } 0
        (bind_key_inner WMState.initial 0 8 38 1).keys = Except.error "KeyError" ∧
    create_remove (on_create_register WMState.initial 1) 1 = Except.ok WMState.initial ∧
    create_remove WMState.initial 1 = Except.error "ValueError" ∧
    (∃ s2, property_remove (on_property_change_register WMState.initial 1 (some 2) 1)
        1 (some 2) 1 = Except.ok s2 ∧
      property_remove s2 1 (some 2) 1 = Except.error "ValueError") ∧
    (∃ s3, signal_remove (on_signal_register WMState.initial "restart" 1) "restart" 1 =
        Except.ok s3 ∧
      signal_remove s3 "restart" 1 = Except.error "ValueError") ∧
    (on_destroy_register WMState.initial 3 1).2 = 1 ∧
    (on_destroy_register WMState.initial 3 1).1.destroy_handlers =
      ainsert WMState.initial.destroy_handlers 3
        ((alookup WMState.initial.destroy_handlers 3).getD [] ++ [1]) :=
  C2_removal_not_idempotent WMState.initial 0 8 38 1 1 3 (some 2) "restart"
    (by decide) rfl (by decide) (by decide) (by decide)

/-- C1: the claim says that after a destroy event is processed no registry -
key-binding map, property-subscription maps, destruction-listener map, focus
history - still holds an entry keyed by the destroyed window.  The code keeps
the destruction-listener entry: the cleanup line of WM._clean_window_data is
the bare expression self.destroy_handlers[window] with no del in front, so at
the concrete input below (window 5, one listener in every registry) the
key-binding map, focus history and property maps are purged but
destroy_handlers still maps 5 to its listener list after handle_destroy. -/
theorem C1_destroy_cleanup_leaves_destroy_entry :
    handle_destroy { WMState.initial with
        key_handlers := [(5, [((8, 38), 1)])],
        property_handlers := [(100, [(some 5, [2]), (none, [3])])],
        destroy_handlers := [(5, [4])],
        focus_history := [7, 5],
        create_handlers := [9] } 5 =
      ({ WMState.initial with
          property_handlers := [(100, [(none, [3])])],
          destroy_handlers := [(5, [4])],
          focus_history := [7],
          create_handlers := [9] }, [4]) ∧
    alookup (handle_destroy { WMState.initial with
        key_handlers := [(5, [((8, 38), 1)])],
        property_handlers := [(100, [(some 5, [2]), (none, [3])])],
        destroy_handlers := [(5, [4])],
        focus_history := [7, 5],
        create_handlers := [9] } 5).1.destroy_handlers 5 = some [4] := by
  decide

/-- C5: the claim says that when a handler deregisters itself (or another
handler of the same sequence) during dispatch, every handler registered when
dispatch began is still invoked exactly once.  The code iterates the live
registry list, so at the concrete input below - handlers 1 and 2 registered,
handler 1 invoking its remove capability during its own execution - handler 2
is never invoked: the list shifts left under the iterator and the loop ends
after index 1 of the shrunken list. -/
theorem C5_live_list_iteration_skips :
    dispatch_live 2 [⟨1, HEffect.removeId 1⟩, ⟨2, HEffect.keep⟩] 0 [] =
      ([⟨2, HEffect.keep⟩], [1]) := by
  decide

/-- C6: over any drain cycle, a handler fault other than a stop or restart
request is logged and processing continues with the next queued event; the run
loop hands back true exactly when the first control fault in the queue is the
stop request, false exactly when it is the restart request, and does not
return at all (re-blocks) exactly when no control fault is queued; the number
of logged faults is the number of faulting events before the first control
fault. -/
theorem C6_run_loop_outcomes (q : List HOutcome) :
    ((runDrain q).1 = some true ↔ firstControl q = some HOutcome.stop) ∧
    ((runDrain q).1 = some false ↔ firstControl q = some HOutcome.restart) ∧
    ((runDrain q).1 = none ↔ firstControl q = none) ∧
    (runDrain q).2 = (q.takeWhile (fun o => !isControl o)).count HOutcome.err := by
  induction q with
  | nil => simp [runDrain, firstControl]
  | cons o rest ih =>
    obtain ⟨ih1, ih2, ih3, ih4⟩ := ih
    cases o <;>
      simp [runDrain, firstControl, isControl, List.find?, List.count_cons, ih1, ih2, ih3, ih4]

/-- C9: a key spec with an unknown modifier token or an unresolvable key name
makes WM.bind_key log the configuration error and return the no-op binder:
nothing is grabbed, no registry is touched, and applying the binder to a
handler returns that handler without fault. -/
theorem C9_invalid_key_spec_noop (strToKeysym : String → Option Nat)
    (keysymToKeycode : Nat → Nat) (keydef : String) (s : WMState) (window func : Nat)
    (hbad : parseModmask ((keydef.splitOn "+").dropLast) = none ∨
      strToKeysym ((keydef.splitOn "+").getLastD "") = none) :
    bind_key strToKeysym keysymToKeycode keydef = Binder.noop ∧
    apply_binder s window (bind_key strToKeysym keysymToKeycode keydef) func =
      ({ state := s, keys := [], grabs := [] }, func) := by
  have hn : bind_key strToKeysym keysymToKeycode keydef = Binder.noop := by
    unfold bind_key
    rcases hbad with h | h
    · simp [h]
    · simp only [List.getLastD_eq_getLast?] at h
      cases hp : parseModmask ((keydef.splitOn "+").dropLast) <;> simp [h, hp]
  refine ⟨hn, ?_⟩
  rw [hn]
  rfl

/-- C9 witness: the spec Ctrl+q with a key-name resolver that knows no symbol
is rejected; the binder applied to handler 7 on the empty registry changes
nothing and hands 7 back. -/
theorem C9_invalid_key_spec_noop_witness :
    bind_key (fun _ => none) (fun n => n) "Ctrl+q" = Binder.noop ∧
    apply_binder WMState.initial 42 (bind_key (fun _ => none) (fun n => n) "Ctrl+q") 7 =
      ({ state := WMState.initial, keys := [], grabs := [] }, 7) :=
  C9_invalid_key_spec_noop (fun _ => none) (fun n => n) "Ctrl+q" WMState.initial 42 7
    (Or.inr rfl)

/-- Closed form of the creation-listener loop: the log gains one entry per
listener whose body runs, each observing the current startup flag; listeners
wrapped with the startup-skip lambda are filtered out while the flag is true. -/
theorem process_foldl_eval (hs : List CHandler) (acc : CState) :
    hs.foldl (fun a h => if h.skip && a.startup then a
      else { a with log := a.log ++ [(h.id, a.startup)] }) acc =
      { acc with log := acc.log ++ replay_entries hs acc.startup } := by
  induction hs generalizing acc with
  | nil => simp [replay_entries]
  | cons h rest ih =>
    by_cases hsk : (h.skip && acc.startup) = true
    · rw [List.foldl_cons, if_pos hsk, ih]
      simp only [Bool.and_eq_true] at hsk
      simp [replay_entries, List.filterMap_cons, hsk.1, hsk.2]
    · rw [List.foldl_cons, if_neg hsk, ih]
      have hsk2 : ¬(h.skip = true ∧ acc.startup = true) := by
        simpa [Bool.and_eq_true] using hsk
      simp [replay_entries, List.filterMap_cons, hsk2]

/-- Closed form of process_create_window. -/
theorem process_create_window_eval (s : CState) :
    process_create_window s =
      { s with log := s.log ++ replay_entries s.create_handlers s.startup } := by
  rw [process_create_window, process_foldl_eval]

/-- Closed form of the replay loop of WM.init over a state whose startup flag is
already raised. -/
theorem wm_init_foldl (clients : List Nat) (acc : CState) (hst : acc.startup = true) :
    clients.foldl (fun a _ => process_create_window a) acc =
      { acc with
          log := acc.log ++
            (List.replicate clients.length (replay_entries acc.create_handlers true)).flatten } := by
  induction clients generalizing acc with
  | nil => simp
  | cons c rest ih =>
    rw [List.foldl_cons, process_create_window_eval]
    rw [ih { acc with log := acc.log ++ replay_entries acc.create_handlers acc.startup } hst]
    simp [hst, List.replicate_succ]

/-- Closed form of WM.init: the flag is raised and stays raised; every body that
runs during the replay observes startup = true and startup-skip listeners are
skipped, once per pre-existing client. -/
theorem wm_init_eval (clients : List Nat) (s : CState) :
    wm_init clients s =
      { s with
          startup := true
          log := s.log ++
            (List.replicate clients.length (replay_entries s.create_handlers true)).flatten } := by
  rw [wm_init, wm_init_foldl clients { s with startup := true } rfl]

/-- A filterMap that keeps everything is a map. -/
theorem filterMap_some_eq_map {α β : Type} (f : α → β) (l : List α) :
    l.filterMap (fun a => some (f a)) = l.map f := by
  induction l with
  | nil => rfl
  | cons a rest ih => simp [List.filterMap_cons, ih]

/-- Closed form of WM.handle_create: the flag is lowered before the listeners
run, so every listener body - the startup-skip wrapped ones included - runs
and observes startup = false. -/
theorem handle_create_eval (s : CState) :
    handle_create s =
      { s with
          startup := false
          log := s.log ++ s.create_handlers.map (fun h => (h.id, false)) } := by
  rw [handle_create, process_create_window_eval]
  simp [replay_entries, filterMap_some_eq_map]

/-- No dispatch step raises the startup flag again. -/
theorem cstep_keeps_false (s : CState) (hs : s.startup = false) (e : CEvent) :
    (cstep s e).startup = false := by
  cases e with
  | create =>
    rw [cstep, handle_create_eval]
  | other => exact hs

/-- Once lowered, the startup flag stays lowered over any event sequence. -/
theorem startup_stays_false (evs : List CEvent) (s : CState) (hs : s.startup = false) :
    (evs.foldl cstep s).startup = false := by
  induction evs generalizing s with
  | nil => exact hs
  | cons e rest ih =>
    rw [List.foldl_cons]
    exact ih (cstep s e) (cstep_keeps_false s hs e)

/-- C4 amended counterpart of the temporal claim: during the one-time replay the
startup flag is true and observable by every listener body that runs, while
startup-skip listeners never run; the flag is still true right after the
replay and stays true until the first live window-create event, whose handler
lowers it before running the listeners - so on live events every listener
(startup-skip wrapped ones included) runs observing startup = false - and no
later event of any kind raises it again. -/
theorem C4_startup_flag_behaviour (s : CState) (clients : List Nat) (evs : List CEvent) :
    (wm_init clients s).startup = true ∧
    (wm_init clients s).log = s.log ++
      (List.replicate clients.length (replay_entries s.create_handlers true)).flatten ∧
    handle_create s =
      { s with
          startup := false
          log := s.log ++ s.create_handlers.map (fun h => (h.id, false)) } ∧
    (evs.foldl cstep (handle_create s)).startup = false := by
  refine ⟨?_, ?_, handle_create_eval s, ?_⟩
  · rw [wm_init_eval]
  · rw [wm_init_eval]
  · exact startup_stays_false evs (handle_create s) (by rw [handle_create_eval])

/-- C4: the claim says that after the startup replay completes the startup flag
is false.  The code only lowers the flag inside handle_create, the handler of
the first live window-create event, so right after WM.init finishes its
replay - here over one pre-existing client, with one ordinary creation
listener whose body logged (1, true) - the flag still reads true. -/
theorem C4_startup_true_after_replay :
    (wm_init [10] ⟨false, [⟨1, false⟩], []⟩).startup = true ∧
    (wm_init [10] ⟨false, [⟨1, false⟩], []⟩).log = [(1, true)] := by
  decide

/-- C10: each exclusive grab slot holds at most one handler; acquiring a held
slot returns false and leaves the whole state untouched (the X grab request is
not even issued); releasing is total and a no-op on a slot that is not held;
and after a release a fresh acquire (XGrabKeyboard, XGrabPointer reporting
success, result 0) returns true and installs the new handler. -/
theorem C10_grab_slots (s t : WMState) (f g : Nat) (xres : Nat)
    (hk : s.grab_keyboard_handler.isSome = true)
    (hp : s.grab_pointer_handler.isSome = true)
    (tk : t.grab_keyboard_handler = none)
    (tp : t.grab_pointer_handler = none) :
    grab_keyboard s xres f = (s, false) ∧
    grab_pointer s xres f = (s, false) ∧
    ungrab_keyboard t = t ∧
    ungrab_pointer t = t ∧
    grab_keyboard (ungrab_keyboard s) 0 g = ({ s with grab_keyboard_handler := some g }, true) ∧
    grab_pointer (ungrab_pointer s) 0 g = ({ s with grab_pointer_handler := some g }, true) := by
  refine ⟨?_, ?_, ?_, ?_, ?_, ?_⟩
  · simp [grab_keyboard, hk]
  · simp [grab_pointer, hp]
  · cases t
    simp_all [ungrab_keyboard]
  · cases t
    simp_all [ungrab_pointer]
  · simp [grab_keyboard, ungrab_keyboard]
  · simp [grab_pointer, ungrab_pointer]

/-- C10 witness: both slots held by handlers 1 and 2 on top of the empty
registries; acquires fail unchanged, releases on the free state are no-ops,
and release-then-acquire installs handler 9. -/
theorem C10_grab_slots_witness :
    grab_keyboard { WMState.initial with
      grab_keyboard_handler := some 1
      grab_pointer_handler := some 2 } 3 8 =
      ({ WMState.initial with
        grab_keyboard_handler := some 1
        grab_pointer_handler := some 2 }, false) ∧
    grab_pointer { WMState.initial with
      grab_keyboard_handler := some 1
      grab_pointer_handler := some 2 } 3 8 =
      ({ WMState.initial with
        grab_keyboard_handler := some 1
        grab_pointer_handler := some 2 }, false) ∧
    ungrab_keyboard WMState.initial = WMState.initial ∧
    ungrab_pointer WMState.initial = WMState.initial ∧
    grab_keyboard (ungrab_keyboard { WMState.initial with
      grab_keyboard_handler := some 1
      grab_pointer_handler := some 2 }) 0 9 =
      ({ WMState.initial with
        grab_keyboard_handler := some 9
        grab_pointer_handler := some 2 }, true) ∧
    grab_pointer (ungrab_pointer { WMState.initial with
      grab_keyboard_handler := some 1
      grab_pointer_handler := some 2 }) 0 9 =
      ({ WMState.initial with
        grab_keyboard_handler := some 1
        grab_pointer_handler := some 9 }, true) :=
  C10_grab_slots
    { WMState.initial with grab_keyboard_handler := some 1, grab_pointer_handler := some 2 }
    WMState.initial 8 9 3 rfl rfl rfl rfl

/-- A non-echo property event dispatches the window-specific subscriber list
followed by the global subscriber list. -/
theorem handle_property_eval (s : WMState) (atom w : Nat) :
    handle_property s atom w 0 = subscribers s atom (some w) ++ subscribers s atom none := by
  unfold handle_property subscribers
  rw [if_pos rfl]
  cases h : alookup s.property_handlers atom with
  | none => simp [alookup]
  | some wph =>
    cases h1 : alookup wph (some w) <;> cases h2 : alookup wph none <;> simp [h1, h2]

/-- C7: a property event whose state discriminant is not the non-echo value 0
fires no subscriber; a non-echo event fires the window-specific subscribers of
the changed atom first and the global (None-keyed) ones after, each segment in
registration order: registering for (P, W) appends to the window segment of
dispatches for W and leaves dispatches for any other window untouched, while
registering for (P, None) appends to the global segment of dispatches for
every window. -/
theorem C7_property_dispatch (s : WMState) (atom w w2 hfun st : Nat)
    (hst : st ≠ 0) (hw2 : w2 ≠ w) :
    handle_property s atom w st = [] ∧
    handle_property s atom w 0 = subscribers s atom (some w) ++ subscribers s atom none ∧
    handle_property (on_property_change_register s atom (some w) hfun) atom w 0 =
      (subscribers s atom (some w) ++ [hfun]) ++ subscribers s atom none ∧
    handle_property (on_property_change_register s atom (some w) hfun) atom w2 0 =
      handle_property s atom w2 0 ∧
    handle_property (on_property_change_register s atom none hfun) atom w 0 =
      subscribers s atom (some w) ++ (subscribers s atom none ++ [hfun]) := by
  have hns : (none : Option Nat) ≠ some w := by simp
  have hsn : some w ≠ (none : Option Nat) := by simp
  have hsw2 : some w2 ≠ some w := by simp [hw2]
  refine ⟨?_, ?_, ?_, ?_, ?_⟩
  · simp [handle_property, hst]
  · exact handle_property_eval s atom w
  · rw [handle_property_eval]
    simp only [subscribers, on_property_change_register, alookup_ainsert,
      alookup_ainsert_ne _ _ _ _ hns, Option.getD_some]
  · rw [handle_property_eval, handle_property_eval]
    simp only [subscribers, on_property_change_register, alookup_ainsert,
      alookup_ainsert_ne _ _ _ _ hsw2, alookup_ainsert_ne _ _ _ _ hns, Option.getD_some]
  · rw [handle_property_eval]
    simp only [subscribers, on_property_change_register, alookup_ainsert,
      alookup_ainsert_ne _ _ _ _ hsn, Option.getD_some]

/-- C7 witness: atom 1 carries subscriber 11 for window 2 and global subscriber
12; the echo event (state 5) fires nobody, the non-echo event fires 11 then
12, a new subscriber 13 lands in the right segment, and window 3 is
unaffected by a registration for window 2. -/
theorem C7_property_dispatch_witness :
    handle_property { WMState.initial with
      property_handlers := [(1, [(some 2, [11]), (none, [12])])] } 1 2 5 = [] ∧
    handle_property { WMState.initial with
      property_handlers := [(1, [(some 2, [11]), (none, [12])])] } 1 2 0 =
      subscribers { WMState.initial with
        property_handlers := [(1, [(some 2, [11]), (none, [12])])] } 1 (some 2) ++
      subscribers { WMState.initial with
        property_handlers := [(1, [(some 2, [11]), (none, [12])])] } 1 none ∧
    handle_property (on_property_change_register { WMState.initial with
      property_handlers := [(1, [(some 2, [11]), (none, [12])])] } 1 (some 2) 13) 1 2 0 =
      (subscribers { WMState.initial with
        property_handlers := [(1, [(some 2, [11]), (none, [12])])] } 1 (some 2) ++ [13]) ++
      subscribers { WMState.initial with
        property_handlers := [(1, [(some 2, [11]), (none, [12])])] } 1 none ∧
    handle_property (on_property_change_register { WMState.initial with
      property_handlers := [(1, [(some 2, [11]), (none, [12])])] } 1 (some 2) 13) 1 3 0 =
      handle_property { WMState.initial with
        property_handlers := [(1, [(some 2, [11]), (none, [12])])] } 1 3 0 ∧
    handle_property (on_property_change_register { WMState.initial with
      property_handlers := [(1, [(some 2, [11]), (none, [12])])] } 1 none 13) 1 2 0 =
      subscribers { WMState.initial with
        property_handlers := [(1, [(some 2, [11]), (none, [12])])] } 1 (some 2) ++
      (subscribers { WMState.initial with
        property_handlers := [(1, [(some 2, [11]), (none, [12])])] } 1 none ++ [13]) :=
  C7_property_dispatch
    { WMState.initial with property_handlers := [(1, [(some 2, [11]), (none, [12])])] }
    1 2 3 13 5 (by decide) (by decide)

/-- One string-criterion statement behaves as the conjunction with the amended
criterion: empty or omitted patterns are skipped, absent or empty attributes
fail. -/
theorem match_step_eval (rmatch : String → String → Bool) (m : Bool) (crit data : Option String) :
    match_step rmatch m crit data = (m && crit_amended rmatch crit data) := by
  cases crit with
  | none => simp [match_step, truthyS, crit_amended]
  | some p =>
    by_cases hp : p = ""
    · subst hp
      simp [match_step, truthyS, crit_amended]
    · cases m with
      | false => simp [match_step, truthyS, crit_amended, hp]
      | true =>
        cases data with
        | none => simp [match_step, truthyS, crit_amended, match_string, hp]
        | some d =>
          by_cases hd : d = "" <;>
            simp [match_step, truthyS, crit_amended, match_string, hp, hd]

/-- The desktop statement behaves as the conjunction with the exact-equality
criterion. -/
theorem desktop_step_eval (m : Bool) (wdesk desk : Option Int) :
    desktop_step m wdesk desk = (m && crit_desktop wdesk desk) := by
  cases desk with
  | none => simp [desktop_step, crit_desktop]
  | some dv => cases m <;> cases wdesk <;> simp [desktop_step, crit_desktop]

/-- C8: the claim says the predicate is true exactly when every supplied
criterion holds, an absent attribute failing its criterion.  The code
disagrees at a concrete input: a name criterion supplied as the empty pattern
against a window with no class/instance attribute.  Python truthiness makes
is_match skip the empty pattern entirely (returning true), while the claim
predicate fails the criterion because the attribute is absent. -/
theorem C8_empty_pattern_mismatch :
    is_match (fun _ _ => false) ⟨none, none, none⟩ (some "") none none none = true ∧
    is_match_claim (fun _ _ => false) ⟨none, none, none⟩ (some "") none none none = false := by
  constructor
  · rfl
  · rfl

/-- C8 amended: for every regular-expression oracle, the window-match predicate
equals the conjunction of the supplied criteria, where a criterion supplied as
the empty pattern is treated as omitted, an absent or empty attribute string
fails a non-empty pattern criterion (patterns are matched from the start of
the attribute through the oracle), the desktop criterion is exact integer
equality (absent desktop fails), and omitted criteria are vacuously true. -/
theorem C8_is_match_follows_code (rmatch : String → String → Bool) (w : XWindow)
    (name cls role : Option String) (desktop : Option Int) :
    is_match rmatch w name cls role desktop = is_match_amended rmatch w name cls role desktop := by
  rw [is_match, is_match_amended, match_step_eval, match_step_eval, match_step_eval,
      desktop_step_eval]
  simp [Bool.and_assoc]

end Orcsome
